import Mathlib

/-!
Verification of the Database handle subsystem of lmdb-zero (`src/dbi.rs`):
`DatabaseOptions` (flags and comparator bindings), `Database::open` with its
registry bookkeeping, `Database::delete`, `assert_same_env`, and the
`entry_cmp_as` comparator.  Machine integers (`MDB_dbi`, `c_int`) are modelled
as `Nat` / `Int`; byte buffers as `List Nat`; the set `open_dbis` guarded by
the environment mutex as a `Finset Nat`; environment identity (raw pointer
comparison) as a `Nat` identifier.
-/

namespace LmdbZero

/-- An error as in `error.rs`: a wrapped status code (`Error { code: c_int }`).
The concrete numeric values of the library error codes live in `error.rs`,
outside the verified sources; only their distinctness matters here. -/
structure Error where
  code : Int
deriving DecidableEq, Repr

namespace error

/-- Modelled from the spec: the `Reopened` condition of `error.rs` — "the
requested handle identifier is already registered to a live handle in this
process".  Exact numeric value immaterial, chosen distinct from the others. -/
def REOPENED : Int := -1000001

/-- Modelled from the spec: the `Mismatch` condition of `error.rs` — "a handle
was used against an environment other than the one it was opened with". -/
def MISMATCH : Int := -1000002

/-- Modelled from the spec: the error produced when converting a name with an
interior NUL byte to a C string (`CString::new` failure mapped into `Error`
by `error.rs`).  Exact numeric value immaterial. -/
def NULBYTE : Int := -1000003

end error

namespace db

/-- The engine flag bits (`db::Flags` in `dbi.rs`), an opaque bitfield. -/
abbrev Flags := Nat

/-- The empty flag set, `db::Flags::empty()`. -/
def Flags.empty : Flags := 0

end db

/-- Rust's derived `Ord` on `Option`: `None` sorts before `Some`, and two
`Some` values compare by the payload.  This is the ordering applied at
`dbi.rs:381` when the two `Option` parse results are compared with `cmp`. -/
def optionCmp {α : Type} (cmp : α → α → Ordering) : Option α → Option α → Ordering
  | none, none => Ordering.eq
  | none, some _ => Ordering.lt
  | some _, none => Ordering.gt
  | some a, some b => cmp a b

/-- Options used for creating or opening a database (`DatabaseOptions` in
`dbi.rs`).  The comparator fields hold the pure byte-buffer comparison
functions (`MDB_cmp_func`), modelled directly as functions. -/
structure DatabaseOptions where
  flags : db.Flags
  key_cmp : Option (List Nat → List Nat → Int)
  val_cmp : Option (List Nat → List Nat → Int)

namespace DatabaseOptions

/-- Creates a new `DatabaseOptions` with the given flags, natural key and
value ordering (`DatabaseOptions::new`). -/
def new (flags : db.Flags) : DatabaseOptions :=
  { flags := flags
    key_cmp := none
    val_cmp := none }

/-- Synonym for `DatabaseOptions::new(db::Flags::empty())`
(`DatabaseOptions::defaults`). -/
def defaults : DatabaseOptions :=
  DatabaseOptions.new db.Flags.empty

/-- The generic comparator `DatabaseOptions::entry_cmp_as::<V>` (dbi.rs
lines 377-388): parse both byte buffers as `V` with `V::from_lmdb_bytes`
(which yields `Option`), compare the two `Option` results with Rust's `Ord`,
and translate the `Ordering` to the C convention -1/0/1.  The trait method
`from_lmdb_bytes` is passed explicitly as a function. -/
def entry_cmp_as {V : Type} [LinearOrder V]
    (from_lmdb_bytes : List Nat → Option V) (ap bp : List Nat) : Int :=
  match optionCmp compare (from_lmdb_bytes ap) (from_lmdb_bytes bp) with
  | Ordering.lt => -1
  | Ordering.eq => 0
  | Ordering.gt => 1

/-- Installs the key comparator derived from `K` (`sort_keys_as::<K>`);
modelled functionally (the Rust method mutates `self`). -/
def sort_keys_as {K : Type} [LinearOrder K]
    (from_lmdb_bytes : List Nat → Option K) (self : DatabaseOptions) :
    DatabaseOptions :=
  { self with key_cmp := some (entry_cmp_as from_lmdb_bytes) }

/-- Installs the duplicate-value comparator derived from `V`
(`sort_values_as::<V>`). -/
def sort_values_as {V : Type} [LinearOrder V]
    (from_lmdb_bytes : List Nat → Option V) (self : DatabaseOptions) :
    DatabaseOptions :=
  { self with val_cmp := some (entry_cmp_as from_lmdb_bytes) }

end DatabaseOptions

/-- The inner RAII wrapper (`DbHandle` in `dbi.rs`): the environment it was
opened against (identity of the `&Environment`, i.e. its address) and the
integer dbi.  Its `Drop` impl calls `env::dbi_close`. -/
structure DbHandle where
  env : Nat
  dbi : Nat
deriving DecidableEq, Repr

/-- A handle on an LMDB database within an environment (`Database` in
`dbi.rs`). -/
structure Database where
  db : DbHandle
deriving DecidableEq, Repr

/-- Checks that `other_env` is the same (by pointer identity) as the
environment on this `Database` (`Database::assert_same_env`, dbi.rs
lines 559-568).  Environment identity is the `Nat` identifier standing for
the `&Environment` address. -/
def Database.assert_same_env (self : Database) (other_env : Nat) :
    Except Error Unit :=
  if self.db.env ≠ other_env then
    Except.error { code := error.MISMATCH }
  else
    Except.ok ()

instance {ε α : Type} [DecidableEq ε] [DecidableEq α] :
    DecidableEq (Except ε α) := fun x y =>
  match x, y with
  | Except.error e, Except.error f =>
    if h : e = f then isTrue (by rw [h]) else
      isFalse (by intro hc; cases hc; exact h rfl)
  | Except.error _, Except.ok _ => isFalse (by intro hc; cases hc)
  | Except.ok _, Except.error _ => isFalse (by intro hc; cases hc)
  | Except.ok a, Except.ok b =>
    if h : a = b then isTrue (by rw [h]) else
      isFalse (by intro hc; cases hc; exact h rfl)

/-- Conversion of a Rust string to a C string (`CString::new` at dbi.rs:467):
fails exactly when the byte string contains a NUL byte (std semantics); the
resulting `NulError` is converted to `Error` by `error.rs`. -/
def cstring_new (s : List Nat) : Except Error (List Nat) :=
  if 0 ∈ s then Except.error { code := error.NULBYTE } else Except.ok s

/-- The observable actions `Database::open` performs against the environment
mutex and the engine, in order: acquiring the `open_dbis` lock, the engine
calls `mdb_txn_begin`, `mdb_dbi_open`, `mdb_set_compare`, `mdb_set_dupsort`,
`mdb_txn_commit`, and the abort performed by `TxHandle`'s drop when the
transaction was not committed. -/
inductive Event where
  | lockAcquire
  | txnBegin
  | dbiOpen
  | setCompare
  | setDupsort
  | commit
  | txnAbort
deriving DecidableEq, Repr

/-- Outcomes of the engine primitives consulted during one `Database::open`
call: whether `mdb_txn_begin` fails (with which code), what `mdb_dbi_open`
returns (error code or the assigned dbi), and whether `mdb_set_compare`,
`mdb_set_dupsort` and `mdb_txn_commit` fail if reached.  The handle layer
treats the engine as a black box, so its behaviour is universally
quantified. -/
structure EngineBehavior where
  txnBegin : Option Int
  dbiOpen : Except Int Nat
  setCompare : Option Int
  setDupsort : Option Int
  commit : Option Int
deriving DecidableEq

/-- The outcome of one `Database::open` call: the returned `Result`, the
state of the `open_dbis` registry set after the call, and the trace of
lock/engine events the call performed. -/
structure OpenResult where
  result : Except Error Database
  registry : Finset Nat
  events : List Event
deriving DecidableEq

/-- The tail of `Database::open` after `locked_dbis.insert(raw)` succeeded
(dbi.rs lines 487-509): install the key comparator if configured
(`mdb_set_compare`), then the duplicate-value comparator (`mdb_set_dupsort`),
then commit; any failure returns the error with `raw` still registered
(the registry set is not rolled back on these paths). -/
def openAfterInsert (env : Nat) (eng : EngineBehavior)
    (options : DatabaseOptions) (registry1 : Finset Nat) (raw : Nat) :
    OpenResult :=
  let ev0 : List Event := [Event.lockAcquire, Event.txnBegin, Event.dbiOpen]
  match options.key_cmp, eng.setCompare with
  | some _, some c =>
    { result := Except.error { code := c }
      registry := registry1
      events := ev0 ++ [Event.setCompare, Event.txnAbort] }
  | kc, _ =>
    let ev1 := ev0 ++ (match kc with
      | some _ => [Event.setCompare]
      | none => [])
    match options.val_cmp, eng.setDupsort with
    | some _, some c =>
      { result := Except.error { code := c }
        registry := registry1
        events := ev1 ++ [Event.setDupsort, Event.txnAbort] }
    | vc, _ =>
      let ev2 := ev1 ++ (match vc with
        | some _ => [Event.setDupsort]
        | none => [])
      match eng.commit with
      | some c =>
        { result := Except.error { code := c }
          registry := registry1
          events := ev2 ++ [Event.commit] }
      | none =>
        { result := Except.ok { db := { env := env, dbi := raw } }
          registry := registry1
          events := ev2 ++ [Event.commit] }

/-- The body of `Database::open` executed under the environment's registry
mutex (dbi.rs lines 469-502): `mdb_txn_begin`; `mdb_dbi_open`; insert the
returned dbi into the `open_dbis` set, failing with `REOPENED` if already
present; then comparator installation and commit (`openAfterInsert`). -/
def openLocked (env : Nat) (eng : EngineBehavior) (registry : Finset Nat)
    (options : DatabaseOptions) : OpenResult :=
  match eng.txnBegin with
  | some c =>
    { result := Except.error { code := c }
      registry := registry
      events := [Event.lockAcquire, Event.txnBegin] }
  | none =>
    match eng.dbiOpen with
    | Except.error c =>
      { result := Except.error { code := c }
        registry := registry
        events := [Event.lockAcquire, Event.txnBegin, Event.dbiOpen,
                   Event.txnAbort] }
    | Except.ok raw =>
      if raw ∈ registry then
        { result := Except.error { code := error.REOPENED }
          registry := registry
          events := [Event.lockAcquire, Event.txnBegin, Event.dbiOpen,
                     Event.txnAbort] }
      else
        openAfterInsert env eng options (insert raw registry) raw

/-- Open a database in the environment (`Database::open`, dbi.rs
lines 461-510).  The name is `None` for the unnamed database or the byte
string of the Rust `&str`; `registry` is the environment's `open_dbis` set at
entry; `env` is the environment's identity.  As in the source: convert the
name with `CString::new` (early return, before the lock, on a NUL byte),
then run the locked body `openLocked`. -/
def Database.«open» (env : Nat) (eng : EngineBehavior)
    (registry : Finset Nat) (name : Option (List Nat))
    (options : DatabaseOptions) : OpenResult :=
  match (match name with
         | none => Except.ok (none : Option (List Nat))
         | some s => Except.map Option.some (cstring_new s)) with
  | Except.error e => { result := Except.error e, registry := registry, events := [] }
  | Except.ok _name_cstr => openLocked env eng registry options

/-- Modelled from the spec: `env::dbi_close` (env.rs, outside the provided
sources) — closing a handle on scope exit removes the identifier from the
registry set, freeing the slot for reuse ("After a handle is dropped (normal
close), opening the same name again succeeds (identifier slot is
reusable)"), and calls the engine's `mdb_dbi_close` bookkeeping primitive,
which always succeeds. -/
def dbi_close (reg : Finset Nat) (dbi : Nat) : Finset Nat :=
  reg.erase dbi

/-- Modelled from the spec: `env::dbi_delete` (env.rs, outside the provided
sources) — begins a scoped transaction, calls the engine's handle-delete
primitive (which "both drops the named database's contents and invalidates
the identifier") and commits; on success the identifier leaves the registry
(its slot becomes reusable, spec section 8: "After delete succeeds on a
handle, a subsequent open with the same name succeeds"); on failure the
scoped transaction aborts and the registry is unchanged.  `outcome` is the
engine's outcome for the delete/commit interaction (`none` = success). -/
def dbi_delete (outcome : Option Int) (reg : Finset Nat) (dbi : Nat) :
    Except Error Unit × Finset Nat :=
  match outcome with
  | none => (Except.ok (), reg.erase dbi)
  | some c => (Except.error { code := c }, reg)

/-- The outcome of one `Database::delete` call: the returned `Result`, the
registry afterwards, and whether the handle's automatic close
(`DbHandle::drop`, i.e. `dbi_close`) ran for this handle. -/
structure DeleteResult where
  result : Except Error Unit
  registry : Finset Nat
  closeRan : Bool
deriving DecidableEq

/-- Deletes this database (`Database::delete`, dbi.rs lines 549-553):
`try!(env::dbi_delete(self.db.env, self.db.dbi))` followed by
`mem::forget(self.db)`.  On success the `mem::forget` suppresses the
`DbHandle` drop, so `dbi_close` never runs for this handle; on failure the
error is returned and `self.db` (consumed by value) is dropped as the call
unwinds, running the ordinary `dbi_close` teardown. -/
def Database.delete (outcome : Option Int) (reg : Finset Nat)
    (self : Database) : DeleteResult :=
  match dbi_delete outcome reg self.db.dbi with
  | (Except.ok _, reg1) =>
    { result := Except.ok ()
      registry := reg1
      closeRan := false }
  | (Except.error e, reg1) =>
    { result := Except.error e
      registry := dbi_close reg1 self.db.dbi
      closeRan := true }

/-- The mutable state of one environment as seen by the handle layer: the
`open_dbis` registry set and the multiset of dbis wrapped by currently live
`Database` objects (a multiset so that "two live handles wrap the same dbi"
is expressible). -/
structure EnvState where
  registry : Finset Nat
  live : Multiset Nat
deriving DecidableEq

/-- Effect of one `Database::open` call on the environment state: the
registry becomes the registry after the call and, on success, the dbi of the
returned handle joins the live handles. -/
def openStep (env : Nat) (eng : EngineBehavior) (name : Option (List Nat))
    (opts : DatabaseOptions) (s : EnvState) : EnvState :=
  match (Database.«open» env eng s.registry name opts).result with
  | Except.ok d =>
    { registry := (Database.«open» env eng s.registry name opts).registry
      live := Multiset.cons d.db.dbi s.live }
  | Except.error _ =>
    { registry := (Database.«open» env eng s.registry name opts).registry
      live := s.live }

/-- Effect of dropping a live `Database` handle: its `DbHandle` drop
(dbi.rs lines 247-251) calls `env::dbi_close`, and the handle ceases to be
live. -/
def dropStep (dbi : Nat) (s : EnvState) : EnvState :=
  { registry := dbi_close s.registry dbi
    live := s.live.erase dbi }

/-- Effect of `Database::delete` on the environment state: the handle ceases
to be live either way (it is consumed by value), and the registry is updated
by `Database.delete` (on failure this includes the `dbi_close` run by the
handle drop). -/
def deleteStep (env : Nat) (outcome : Option Int) (dbi : Nat)
    (s : EnvState) : EnvState :=
  { registry :=
      (Database.delete outcome s.registry { db := { env := env, dbi := dbi } }).registry
    live := s.live.erase dbi }

/-- States of one environment reachable from the initial state (empty
registry, no live handles) by any sequence of `Database::open` calls (with
arbitrary engine behaviour), drops of live handles, and `Database::delete`
calls on live handles (with arbitrary engine outcome). -/
inductive Reachable : EnvState → Prop where
  | init : Reachable { registry := ∅, live := 0 }
  | openCall (s : EnvState) (env : Nat) (eng : EngineBehavior)
      (name : Option (List Nat)) (opts : DatabaseOptions) :
      Reachable s → Reachable (openStep env eng name opts s)
  | dropCall (s : EnvState) (dbi : Nat) :
      Reachable s → dbi ∈ s.live → Reachable (dropStep dbi s)
  | deleteCall (s : EnvState) (env : Nat) (outcome : Option Int) (dbi : Nat) :
      Reachable s → dbi ∈ s.live → Reachable (deleteStep env outcome dbi s)

/-- The comparator-installation-and-commit tail never changes the registry:
its registry is exactly the set it was given (the one with `raw` already
inserted). -/
theorem openAfterInsert_registry (env : Nat) (eng : EngineBehavior)
    (opts : DatabaseOptions) (reg1 : Finset Nat) (raw : Nat) :
    (openAfterInsert env eng opts reg1 raw).registry = reg1 := by
  obtain ⟨tb, dop, sc, sd, cm⟩ := eng
  obtain ⟨fl, kc, vc⟩ := opts
  rcases kc with _ | f1 <;> rcases vc with _ | f2 <;>
    rcases sc with _ | c3 <;> rcases sd with _ | c4 <;>
      rcases cm with _ | c5 <;> rfl

/-- If the tail succeeds, the returned handle is built from `env` and the
inserted dbi `raw`. -/
theorem openAfterInsert_ok (env : Nat) (eng : EngineBehavior)
    (opts : DatabaseOptions) (reg1 : Finset Nat) (raw : Nat) (d : Database)
    (h : (openAfterInsert env eng opts reg1 raw).result = Except.ok d) :
    d = { db := { env := env, dbi := raw } } := by
  obtain ⟨tb, dop, sc, sd, cm⟩ := eng
  obtain ⟨fl, kc, vc⟩ := opts
  rcases kc with _ | f1 <;> rcases vc with _ | f2 <;>
    rcases sc with _ | c3 <;> rcases sd with _ | c4 <;>
      rcases cm with _ | c5 <;> simp_all [openAfterInsert]

/-- If the comparator-installation-and-commit tail fails, the failure is
attributable to one of its three stages: a configured key comparator whose
`mdb_set_compare` failed, a configured duplicate-value comparator whose
`mdb_set_dupsort` failed, or a failing `mdb_txn_commit`; the returned error
carries that stage's engine code. -/
theorem openAfterInsert_error (env : Nat) (eng : EngineBehavior)
    (opts : DatabaseOptions) (reg1 : Finset Nat) (raw : Nat) (e : Error)
    (h : (openAfterInsert env eng opts reg1 raw).result = Except.error e) :
    (opts.key_cmp ≠ none ∧ eng.setCompare = some e.code) ∨
    (opts.val_cmp ≠ none ∧ eng.setDupsort = some e.code) ∨
    eng.commit = some e.code := by
  obtain ⟨tb, dop, sc, sd, cm⟩ := eng
  obtain ⟨fl, kc, vc⟩ := opts
  rcases kc with _ | f1 <;> rcases vc with _ | f2 <;>
    rcases sc with _ | c3 <;> rcases sd with _ | c4 <;>
      rcases cm with _ | c5 <;>
        simp_all [openAfterInsert] <;>
          (subst h; simp)

/-- A successful locked body returns the handle built from the dbi that
`mdb_dbi_open` assigned; that dbi was not previously registered, and the
registry after the call is the old set with exactly that dbi inserted. -/
theorem openLocked_ok_spec (env : Nat) (eng : EngineBehavior)
    (reg : Finset Nat) (opts : DatabaseOptions) (d : Database)
    (h : (openLocked env eng reg opts).result = Except.ok d) :
    eng.dbiOpen = Except.ok d.db.dbi ∧ d.db.env = env ∧ d.db.dbi ∉ reg ∧
      (openLocked env eng reg opts).registry = insert d.db.dbi reg := by
  rcases htb : eng.txnBegin with _ | c1
  · rcases hdop : eng.dbiOpen with c2 | raw
    · simp [openLocked, htb, hdop] at h
    · by_cases hmem : raw ∈ reg
      · simp [openLocked, htb, hdop, hmem] at h
      · have h2 : (openAfterInsert env eng opts (insert raw reg) raw).result
            = Except.ok d := by
          simpa [openLocked, htb, hdop, hmem] using h
        have h3 := openAfterInsert_ok env eng opts (insert raw reg) raw d h2
        subst h3
        refine ⟨rfl, rfl, hmem, ?_⟩
        simp [openLocked, htb, hdop, hmem, openAfterInsert_registry]
  · simp [openLocked, htb] at h

/-- The registry after the locked body is either unchanged or is the old set
with exactly the (previously unregistered) dbi returned by `mdb_dbi_open`
inserted. -/
theorem openLocked_registry_cases (env : Nat) (eng : EngineBehavior)
    (reg : Finset Nat) (opts : DatabaseOptions) :
    (openLocked env eng reg opts).registry = reg ∨
    ∃ raw, eng.dbiOpen = Except.ok raw ∧ raw ∉ reg ∧
      (openLocked env eng reg opts).registry = insert raw reg := by
  rcases htb : eng.txnBegin with _ | c1
  · rcases hdop : eng.dbiOpen with c2 | raw
    · left; simp [openLocked, htb, hdop]
    · by_cases hmem : raw ∈ reg
      · left; simp [openLocked, htb, hdop, hmem]
      · right
        exact ⟨raw, rfl, hmem, by
          simp [openLocked, htb, hdop, hmem, openAfterInsert_registry]⟩
  · left; simp [openLocked, htb]

/-- With a NUL-free (or absent) name, `Database::open` is exactly the locked
body. -/
theorem open_eq_openLocked (env : Nat) (eng : EngineBehavior)
    (reg : Finset Nat) (name : Option (List Nat)) (opts : DatabaseOptions)
    (hname : ∀ s, name = some s → (0 : Nat) ∉ s) :
    Database.«open» env eng reg name opts = openLocked env eng reg opts := by
  rcases name with _ | s
  · rfl
  · have hs := hname s rfl
    simp [Database.«open», cstring_new, hs, Except.map]

/-- A successful `Database::open` call returns the handle built from the dbi
that `mdb_dbi_open` assigned; that dbi was not previously registered, and
the registry after the call is the old registry with exactly that dbi
inserted. -/
theorem open_ok_spec (env : Nat) (eng : EngineBehavior) (reg : Finset Nat)
    (name : Option (List Nat)) (opts : DatabaseOptions) (d : Database)
    (h : (Database.«open» env eng reg name opts).result = Except.ok d) :
    eng.dbiOpen = Except.ok d.db.dbi ∧ d.db.env = env ∧ d.db.dbi ∉ reg ∧
      (Database.«open» env eng reg name opts).registry =
        insert d.db.dbi reg := by
  rcases name with _ | s
  · exact openLocked_ok_spec env eng reg opts d h
  · by_cases hs : (0 : Nat) ∈ s
    · simp [Database.«open», cstring_new, hs, Except.map] at h
    · rw [open_eq_openLocked env eng reg (some s) opts
        (by intro t ht; cases ht; exact hs)] at h ⊢
      exact openLocked_ok_spec env eng reg opts d h

/-- The registry after any `Database::open` call is either unchanged or is
the old registry with exactly the (previously unregistered) dbi returned by
`mdb_dbi_open` inserted. -/
theorem open_registry_cases (env : Nat) (eng : EngineBehavior)
    (reg : Finset Nat) (name : Option (List Nat)) (opts : DatabaseOptions) :
    (Database.«open» env eng reg name opts).registry = reg ∨
    ∃ raw, eng.dbiOpen = Except.ok raw ∧ raw ∉ reg ∧
      (Database.«open» env eng reg name opts).registry = insert raw reg := by
  rcases name with _ | s
  · exact openLocked_registry_cases env eng reg opts
  · by_cases hs : (0 : Nat) ∈ s
    · left; simp [Database.«open», cstring_new, hs, Except.map]
    · rw [open_eq_openLocked env eng reg (some s) opts
        (by intro t ht; cases ht; exact hs)]
      exact openLocked_registry_cases env eng reg opts

/-- C7: `assert_same_env(handle, E2)` returns `Ok(())` iff `E2` is
identity-equal to the environment the handle was opened against, and returns
the `Mismatch` error exactly otherwise; it is a pure function of the handle
and the environment identity (no state is taken or produced). -/
theorem assert_same_env_iff (self : Database) (other_env : Nat) :
    (Database.assert_same_env self other_env = Except.ok () ↔
      self.db.env = other_env) ∧
    (Database.assert_same_env self other_env =
        Except.error { code := error.MISMATCH } ↔
      self.db.env ≠ other_env) := by
  unfold Database.assert_same_env
  by_cases h : self.db.env = other_env <;> simp [h]

/-- C9: `defaults()` equals `new` applied to the empty flag set; its flags
are empty and both comparators are unset, and in general `new(flags)` carries
the given flags with both comparators unset. -/
theorem defaults_eq_new_empty :
    DatabaseOptions.defaults = DatabaseOptions.new db.Flags.empty ∧
    DatabaseOptions.defaults.flags = db.Flags.empty ∧
    DatabaseOptions.defaults.key_cmp = none ∧
    DatabaseOptions.defaults.val_cmp = none ∧
    ∀ f : db.Flags, (DatabaseOptions.new f).flags = f ∧
      (DatabaseOptions.new f).key_cmp = none ∧
      (DatabaseOptions.new f).val_cmp = none :=
  ⟨rfl, rfl, rfl, rfl, fun _ => ⟨rfl, rfl, rfl⟩⟩

/-- C5: when both buffers parse successfully as `K`, the comparator installed
by `sort_keys_as::<K>` returns -1, 0 or 1 exactly when `K`'s own ordering on
the parsed values is `Less`, `Equal` or `Greater` respectively. -/
theorem entry_cmp_as_agrees_with_ord {K : Type} [LinearOrder K]
    (from_lmdb_bytes : List Nat → Option K) (a b : List Nat) (ka kb : K)
    (ha : from_lmdb_bytes a = some ka) (hb : from_lmdb_bytes b = some kb) :
    (DatabaseOptions.entry_cmp_as from_lmdb_bytes a b = -1 ↔
      compare ka kb = Ordering.lt) ∧
    (DatabaseOptions.entry_cmp_as from_lmdb_bytes a b = 0 ↔
      compare ka kb = Ordering.eq) ∧
    (DatabaseOptions.entry_cmp_as from_lmdb_bytes a b = 1 ↔
      compare ka kb = Ordering.gt) := by
  unfold DatabaseOptions.entry_cmp_as optionCmp
  rw [ha, hb]
  rcases h : compare ka kb <;> simp [h]

/-- Witness for C5 at a concrete instance: `K = Nat`,
`from_lmdb_bytes = List.head?`, buffers `[1,2]` and `[3]`. -/
theorem entry_cmp_as_agrees_with_ord_witness :
    List.head? ([1, 2] : List Nat) = some 1 ∧
    List.head? ([3] : List Nat) = some 3 ∧
    ((DatabaseOptions.entry_cmp_as List.head? [1, 2] [3] = -1 ↔
        compare (1 : Nat) 3 = Ordering.lt) ∧
     (DatabaseOptions.entry_cmp_as List.head? [1, 2] [3] = 0 ↔
        compare (1 : Nat) 3 = Ordering.eq) ∧
     (DatabaseOptions.entry_cmp_as List.head? [1, 2] [3] = 1 ↔
        compare (1 : Nat) 3 = Ordering.gt)) :=
  ⟨rfl, rfl, entry_cmp_as_agrees_with_ord List.head? [1, 2] [3] 1 3 rfl rfl⟩

/-- C6 counterexample: a buffer that fails to parse is NOT treated as equal
to a buffer that parses; with `K = Nat` and `from_lmdb_bytes = List.head?`,
the empty buffer fails to parse, `[5]` parses, and the comparator returns -1
(the unparseable buffer sorts strictly before), not 0. -/
theorem entry_cmp_as_unparsed_not_equal_to_parsed :
    List.head? ([] : List Nat) = none ∧
    List.head? ([5] : List Nat) = some 5 ∧
    DatabaseOptions.entry_cmp_as (V := Nat) List.head? [] [5] = -1 ∧
    DatabaseOptions.entry_cmp_as (V := Nat) List.head? [] [5] ≠ 0 :=
  ⟨rfl, rfl, rfl, by decide⟩

/-- C6 amended: two buffers that both fail to parse as `K` are treated as
equal (result 0); a buffer that fails to parse compares strictly less than
(-1 against) every buffer that parses, and conversely a parsing buffer
compares strictly greater (+1) than a failing one, because Rust's `Option`
ordering puts `None` before `Some`; the result is always one of -1, 0, 1
(a total order, never an error). -/
theorem entry_cmp_as_unparsed_ordering {K : Type} [LinearOrder K]
    (from_lmdb_bytes : List Nat → Option K) (a b : List Nat) :
    (from_lmdb_bytes a = none → from_lmdb_bytes b = none →
      DatabaseOptions.entry_cmp_as from_lmdb_bytes a b = 0) ∧
    (from_lmdb_bytes a = none → ∀ kb, from_lmdb_bytes b = some kb →
      DatabaseOptions.entry_cmp_as from_lmdb_bytes a b = -1) ∧
    (∀ ka, from_lmdb_bytes a = some ka → from_lmdb_bytes b = none →
      DatabaseOptions.entry_cmp_as from_lmdb_bytes a b = 1) ∧
    (DatabaseOptions.entry_cmp_as from_lmdb_bytes a b = -1 ∨
     DatabaseOptions.entry_cmp_as from_lmdb_bytes a b = 0 ∨
     DatabaseOptions.entry_cmp_as from_lmdb_bytes a b = 1) := by
  unfold DatabaseOptions.entry_cmp_as optionCmp
  rcases ha : from_lmdb_bytes a with _ | ka <;>
    rcases hb : from_lmdb_bytes b with _ | kb <;>
      simp [ha, hb]
  rcases h : compare ka kb <;> simp [h]

/-- Witness for C6's amended statement at `K = Nat`,
`from_lmdb_bytes = List.head?`. -/
theorem entry_cmp_as_unparsed_ordering_witness :
    DatabaseOptions.entry_cmp_as (V := Nat) List.head? [] [] = 0 ∧
    DatabaseOptions.entry_cmp_as (V := Nat) List.head? [] [7] = -1 ∧
    DatabaseOptions.entry_cmp_as (V := Nat) List.head? [7] [] = 1 :=
  ⟨(entry_cmp_as_unparsed_ordering List.head? [] []).1 rfl rfl,
   (entry_cmp_as_unparsed_ordering List.head? [] [7]).2.1 rfl 7 rfl,
   (entry_cmp_as_unparsed_ordering List.head? [7] []).2.2.1 7 rfl rfl⟩

/-- The registry never shrinks across a `Database::open` call. -/
theorem open_registry_mono (env : Nat) (eng : EngineBehavior)
    (reg : Finset Nat) (name : Option (List Nat)) (opts : DatabaseOptions) :
    reg ⊆ (Database.«open» env eng reg name opts).registry := by
  rcases open_registry_cases env eng reg name opts with h | ⟨raw, _, _, h⟩
  · rw [h]
  · rw [h]; exact Finset.subset_insert _ _

/-- When the call reaches the engine (NUL-free name, transaction begin
succeeds) and `mdb_dbi_open` returns an identifier already in the registry,
`Database::open` returns exactly the `Reopened` failure with the registry
unchanged, having neither installed a comparator nor committed. -/
theorem open_reopened_eq (env : Nat) (eng : EngineBehavior)
    (reg : Finset Nat) (name : Option (List Nat)) (opts : DatabaseOptions)
    (raw : Nat) (hname : ∀ s, name = some s → (0 : Nat) ∉ s)
    (htb : eng.txnBegin = none) (hdop : eng.dbiOpen = Except.ok raw)
    (hmem : raw ∈ reg) :
    Database.«open» env eng reg name opts =
      { result := Except.error { code := error.REOPENED }
        registry := reg
        events := [Event.lockAcquire, Event.txnBegin, Event.dbiOpen,
                   Event.txnAbort] } := by
  rw [open_eq_openLocked env eng reg name opts hname]
  simp [openLocked, htb, hdop, hmem]

/-- The registry after `Database::delete` is always the old registry with
the handle dbi erased: on success `dbi_delete` removes it, on failure the
handle drop runs `dbi_close`, which removes it. -/
theorem delete_registry_erase (outcome : Option Int) (reg : Finset Nat)
    (self : Database) :
    (Database.delete outcome reg self).registry = reg.erase self.db.dbi := by
  rcases outcome with _ | c <;> simp [Database.delete, dbi_delete, dbi_close]

/-- Erasing one dbi from both the live multiset and the registry preserves
the at-most-one-live-handle property and live-implies-registered. -/
theorem erase_preserves_inv (reg : Finset Nat) (live : Multiset Nat)
    (dbi : Nat) (ih1 : ∀ d, Multiset.count d live ≤ 1)
    (ih2 : ∀ d, d ∈ live → d ∈ reg) :
    (∀ d, Multiset.count d (live.erase dbi) ≤ 1) ∧
    (∀ d, d ∈ live.erase dbi → d ∈ reg.erase dbi) := by
  constructor
  · intro d
    exact le_trans (Multiset.count_le_of_le d (Multiset.erase_le dbi live))
      (ih1 d)
  · intro d hd
    by_cases hne : d = dbi
    · subst hne
      exfalso
      have h1 : 0 < Multiset.count d (live.erase d) := Multiset.count_pos.2 hd
      rw [Multiset.count_erase_self] at h1
      have h2 := ih1 d
      omega
    · exact Finset.mem_erase.2 ⟨hne, ih2 d (Multiset.mem_of_mem_erase hd)⟩

/-- C10: for a name containing a NUL byte, `Database::open` returns an error
without acquiring the registry mutex, without beginning any engine
transaction and without calling `mdb_dbi_open` (the event trace is empty),
and the registry set is unchanged. -/
theorem open_nul_name_no_effect (env : Nat) (eng : EngineBehavior)
    (reg : Finset Nat) (s : List Nat) (opts : DatabaseOptions)
    (hs : (0 : Nat) ∈ s) :
    (Database.«open» env eng reg (some s) opts).result =
      Except.error { code := error.NULBYTE } ∧
    (Database.«open» env eng reg (some s) opts).registry = reg ∧
    (Database.«open» env eng reg (some s) opts).events = [] ∧
    Event.lockAcquire ∉ (Database.«open» env eng reg (some s) opts).events ∧
    Event.txnBegin ∉ (Database.«open» env eng reg (some s) opts).events ∧
    Event.dbiOpen ∉ (Database.«open» env eng reg (some s) opts).events := by
  simp [Database.«open», cstring_new, hs, Except.map]

/-- Witness for C10 at the concrete name `[0]`, an engine that would succeed,
and an empty registry. -/
theorem open_nul_name_no_effect_witness :
    (Database.«open» 0 ⟨none, Except.ok 5, none, none, none⟩ ∅ (some [0])
        DatabaseOptions.defaults).result =
      Except.error { code := error.NULBYTE } ∧
    (Database.«open» 0 ⟨none, Except.ok 5, none, none, none⟩ ∅ (some [0])
        DatabaseOptions.defaults).registry = ∅ ∧
    (Database.«open» 0 ⟨none, Except.ok 5, none, none, none⟩ ∅ (some [0])
        DatabaseOptions.defaults).events = [] ∧
    Event.lockAcquire ∉ (Database.«open» 0 ⟨none, Except.ok 5, none, none, none⟩
        ∅ (some [0]) DatabaseOptions.defaults).events ∧
    Event.txnBegin ∉ (Database.«open» 0 ⟨none, Except.ok 5, none, none, none⟩
        ∅ (some [0]) DatabaseOptions.defaults).events ∧
    Event.dbiOpen ∉ (Database.«open» 0 ⟨none, Except.ok 5, none, none, none⟩
        ∅ (some [0]) DatabaseOptions.defaults).events :=
  open_nul_name_no_effect 0 ⟨none, Except.ok 5, none, none, none⟩ ∅ [0]
    DatabaseOptions.defaults (by decide)

/-- C2: if a first `Database::open` succeeded (a live handle wraps its dbi),
and a second call for the same environment and name reaches the engine
(NUL-free name, transaction begin succeeds) and the engine returns the same
identifier for (E, N), then the second call fails with `Reopened`, installs
no comparator, does not commit, and leaves the registry unchanged — opening
the same (E, N) twice without closing yields success then `Reopened`. -/
theorem open_twice_reopened (env : Nat) (eng1 eng2 : EngineBehavior)
    (reg : Finset Nat) (name : Option (List Nat)) (opts : DatabaseOptions)
    (d : Database)
    (h1 : (Database.«open» env eng1 reg name opts).result = Except.ok d)
    (hname : ∀ s, name = some s → (0 : Nat) ∉ s)
    (htb : eng2.txnBegin = none)
    (h2 : eng2.dbiOpen = Except.ok d.db.dbi) :
    (Database.«open» env eng2
        (Database.«open» env eng1 reg name opts).registry name opts).result =
      Except.error { code := error.REOPENED } ∧
    (Database.«open» env eng2
        (Database.«open» env eng1 reg name opts).registry name opts).registry =
      (Database.«open» env eng1 reg name opts).registry ∧
    Event.setCompare ∉ (Database.«open» env eng2
        (Database.«open» env eng1 reg name opts).registry name opts).events ∧
    Event.setDupsort ∉ (Database.«open» env eng2
        (Database.«open» env eng1 reg name opts).registry name opts).events ∧
    Event.commit ∉ (Database.«open» env eng2
        (Database.«open» env eng1 reg name opts).registry name opts).events := by
  obtain ⟨hdop1, henv, hnot, hreg⟩ := open_ok_spec env eng1 reg name opts d h1
  have hmem : d.db.dbi ∈ (Database.«open» env eng1 reg name opts).registry := by
    rw [hreg]; exact Finset.mem_insert_self _ _
  rw [open_reopened_eq env eng2 _ name opts d.db.dbi hname htb h2 hmem]
  refine ⟨rfl, rfl, ?_, ?_, ?_⟩
  · show Event.setCompare ∉ [Event.lockAcquire, Event.txnBegin, Event.dbiOpen,
      Event.txnAbort]
    decide
  · show Event.setDupsort ∉ [Event.lockAcquire, Event.txnBegin, Event.dbiOpen,
      Event.txnAbort]
    decide
  · show Event.commit ∉ [Event.lockAcquire, Event.txnBegin, Event.dbiOpen,
      Event.txnAbort]
    decide

/-- Witness for C2: first open succeeds with dbi 3 on an empty registry;
the second call with the engine returning 3 again fails with `Reopened`. -/
theorem open_twice_reopened_witness :
    (Database.«open» 0 ⟨none, Except.ok 3, none, none, none⟩
        (Database.«open» 0 ⟨none, Except.ok 3, none, none, none⟩ ∅ none
          DatabaseOptions.defaults).registry none
        DatabaseOptions.defaults).result =
      Except.error { code := error.REOPENED } ∧
    (Database.«open» 0 ⟨none, Except.ok 3, none, none, none⟩
        (Database.«open» 0 ⟨none, Except.ok 3, none, none, none⟩ ∅ none
          DatabaseOptions.defaults).registry none
        DatabaseOptions.defaults).registry =
      (Database.«open» 0 ⟨none, Except.ok 3, none, none, none⟩ ∅ none
        DatabaseOptions.defaults).registry ∧
    Event.setCompare ∉ (Database.«open» 0 ⟨none, Except.ok 3, none, none, none⟩
        (Database.«open» 0 ⟨none, Except.ok 3, none, none, none⟩ ∅ none
          DatabaseOptions.defaults).registry none
        DatabaseOptions.defaults).events ∧
    Event.setDupsort ∉ (Database.«open» 0 ⟨none, Except.ok 3, none, none, none⟩
        (Database.«open» 0 ⟨none, Except.ok 3, none, none, none⟩ ∅ none
          DatabaseOptions.defaults).registry none
        DatabaseOptions.defaults).events ∧
    Event.commit ∉ (Database.«open» 0 ⟨none, Except.ok 3, none, none, none⟩
        (Database.«open» 0 ⟨none, Except.ok 3, none, none, none⟩ ∅ none
          DatabaseOptions.defaults).registry none
        DatabaseOptions.defaults).events :=
  open_twice_reopened 0 ⟨none, Except.ok 3, none, none, none⟩
    ⟨none, Except.ok 3, none, none, none⟩ ∅ none DatabaseOptions.defaults
    { db := { env := 0, dbi := 3 } } (by decide)
    (fun s h => by cases h) rfl rfl

/-- C1 counterexample: with an engine whose commit fails, `Database::open`
on an empty registry returns an error yet the dbi inserted by this very call
(5) remains registered — the registry is not left exactly as it was before
the call. -/
theorem open_error_can_leak_registration :
    (Database.«open» 0 ⟨none, Except.ok 5, none, none, some (-30788)⟩ ∅ none
        DatabaseOptions.defaults).result =
      Except.error { code := -30788 } ∧
    (Database.«open» 0 ⟨none, Except.ok 5, none, none, some (-30788)⟩ ∅ none
        DatabaseOptions.defaults).registry = {5} ∧
    ({5} : Finset Nat) ≠ (∅ : Finset Nat) :=
  ⟨by decide, by decide, by decide⟩

/-- C1 amended, per failure stage.  Pre-insertion failures leave the
registry exactly as it was before the call: a NUL-byte name (failing before
any engine interaction), a `mdb_txn_begin` failure, a `mdb_dbi_open`
failure, and the `Reopened` condition each return their error with the
registry unchanged.  Post-insertion failures leak the registration: if
handle-open returned a fresh identifier `raw` (so the call inserted it) and
the call still fails, the failure lies in comparator installation or commit
(the error carries that stage's engine code) and the registry is exactly the
old set with `raw` still inserted. -/
theorem open_failure_registry_effect (env : Nat) (eng : EngineBehavior)
    (reg : Finset Nat) (name : Option (List Nat)) (opts : DatabaseOptions) :
    (∀ s, name = some s → (0 : Nat) ∈ s →
      (Database.«open» env eng reg name opts).result =
        Except.error { code := error.NULBYTE } ∧
      (Database.«open» env eng reg name opts).registry = reg) ∧
    (∀ c, (∀ s, name = some s → (0 : Nat) ∉ s) → eng.txnBegin = some c →
      (Database.«open» env eng reg name opts).result =
        Except.error { code := c } ∧
      (Database.«open» env eng reg name opts).registry = reg) ∧
    (∀ c, (∀ s, name = some s → (0 : Nat) ∉ s) → eng.txnBegin = none →
      eng.dbiOpen = Except.error c →
      (Database.«open» env eng reg name opts).result =
        Except.error { code := c } ∧
      (Database.«open» env eng reg name opts).registry = reg) ∧
    (∀ raw, (∀ s, name = some s → (0 : Nat) ∉ s) → eng.txnBegin = none →
      eng.dbiOpen = Except.ok raw → raw ∈ reg →
      (Database.«open» env eng reg name opts).result =
        Except.error { code := error.REOPENED } ∧
      (Database.«open» env eng reg name opts).registry = reg) ∧
    (∀ raw e, (∀ s, name = some s → (0 : Nat) ∉ s) → eng.txnBegin = none →
      eng.dbiOpen = Except.ok raw → raw ∉ reg →
      (Database.«open» env eng reg name opts).result = Except.error e →
      (Database.«open» env eng reg name opts).registry = insert raw reg ∧
      ((opts.key_cmp ≠ none ∧ eng.setCompare = some e.code) ∨
       (opts.val_cmp ≠ none ∧ eng.setDupsort = some e.code) ∨
       eng.commit = some e.code)) := by
  refine ⟨?_, ?_, ?_, ?_, ?_⟩
  · intro s hn hs
    subst hn
    simp [Database.«open», cstring_new, hs, Except.map]
  · intro c hname htb
    rw [open_eq_openLocked env eng reg name opts hname]
    simp [openLocked, htb]
  · intro c hname htb hdop
    rw [open_eq_openLocked env eng reg name opts hname]
    simp [openLocked, htb, hdop]
  · intro raw hname htb hdop hmem
    rw [open_reopened_eq env eng reg name opts raw hname htb hdop hmem]
    exact ⟨rfl, rfl⟩
  · intro raw e hname htb hdop hnot hres
    have heq : Database.«open» env eng reg name opts =
        openAfterInsert env eng opts (insert raw reg) raw := by
      rw [open_eq_openLocked env eng reg name opts hname]
      simp [openLocked, htb, hdop, hnot]
    rw [heq] at hres ⊢
    exact ⟨openAfterInsert_registry env eng opts (insert raw reg) raw,
           openAfterInsert_error env eng opts (insert raw reg) raw e hres⟩

/-- Witness for C1's amended statement: the post-insertion stage at a
commit-failure input (dbi 6 stays inserted, cause attributed to commit), and
the pre-insertion `Reopened` stage (registry left at `{3}`). -/
theorem open_failure_registry_effect_witness :
    ((Database.«open» 0 ⟨none, Except.ok 6, none, none, some (-1)⟩ ∅ none
        DatabaseOptions.defaults).registry = insert 6 ∅ ∧
      ((DatabaseOptions.defaults.key_cmp ≠ none ∧
          (EngineBehavior.mk none (Except.ok 6) none none
            (some (-1))).setCompare = some (Error.mk (-1)).code) ∨
       (DatabaseOptions.defaults.val_cmp ≠ none ∧
          (EngineBehavior.mk none (Except.ok 6) none none
            (some (-1))).setDupsort = some (Error.mk (-1)).code) ∨
       (EngineBehavior.mk none (Except.ok 6) none none (some (-1))).commit =
         some (Error.mk (-1)).code)) ∧
    ((Database.«open» 0 ⟨none, Except.ok 3, none, none, none⟩ {3} none
        DatabaseOptions.defaults).result =
      Except.error { code := error.REOPENED } ∧
     (Database.«open» 0 ⟨none, Except.ok 3, none, none, none⟩ {3} none
        DatabaseOptions.defaults).registry = {3}) :=
  ⟨(open_failure_registry_effect 0 ⟨none, Except.ok 6, none, none, some (-1)⟩
      ∅ none DatabaseOptions.defaults).2.2.2.2 6 { code := -1 }
      (fun s h => by cases h) rfl rfl (by decide) (by decide),
   (open_failure_registry_effect 0 ⟨none, Except.ok 3, none, none, none⟩ {3}
      none DatabaseOptions.defaults).2.2.2.1 3
      (fun s h => by cases h) rfl rfl (by decide)⟩

/-- C4 (with `env::dbi_delete` and `env::dbi_close` modelled from the spec):
`Database::delete` consumes the handle and calls the engine's handle-delete
primitive, whose result it returns verbatim; on success it returns `Ok(())`
and the handle's automatic close (`dbi_close`) never runs for this handle
(`mem::forget`); on failure the error is returned to the caller and the
ordinary close behaviour still runs as the consumed handle goes out of
scope. -/
theorem delete_close_behavior (outcome : Option Int) (reg : Finset Nat)
    (self : Database) :
    ((Database.delete outcome reg self).result =
      (dbi_delete outcome reg self.db.dbi).1) ∧
    (outcome = none →
      (Database.delete outcome reg self).result = Except.ok () ∧
      (Database.delete outcome reg self).closeRan = false) ∧
    (∀ c, outcome = some c →
      (Database.delete outcome reg self).result =
        Except.error { code := c } ∧
      (Database.delete outcome reg self).closeRan = true) := by
  rcases outcome with _ | c <;> simp [Database.delete, dbi_delete]

/-- Witness for C4 at dbi 4: a successful delete suppresses the close, a
failing delete (engine code 7) returns the error and runs the close. -/
theorem delete_close_behavior_witness :
    ((Database.delete none ∅ { db := { env := 0, dbi := 4 } }).result =
        Except.ok () ∧
      (Database.delete none ∅ { db := { env := 0, dbi := 4 } }).closeRan =
        false) ∧
    ((Database.delete (some 7) ∅ { db := { env := 0, dbi := 4 } }).result =
        Except.error { code := 7 } ∧
      (Database.delete (some 7) ∅ { db := { env := 0, dbi := 4 } }).closeRan =
        true) :=
  ⟨(delete_close_behavior none ∅ { db := { env := 0, dbi := 4 } }).2.1 rfl,
   (delete_close_behavior (some 7) ∅
      { db := { env := 0, dbi := 4 } }).2.2 7 rfl⟩

/-- C3 amended: in every state reachable by any sequence of
`Database::open`, `Database::delete` and handle drops, no two live
`Database` objects wrap the same identifier (each dbi is wrapped by at most
one live handle) and every identifier wrapped by a live handle is present in
the registry.  The converse inclusion of the claim fails: an identifier can
remain registered with no live handle after an `open` that failed during
comparator installation or commit. -/
theorem reachable_live_registry_invariant (s : EnvState) (h : Reachable s) :
    (∀ d, Multiset.count d s.live ≤ 1) ∧
    (∀ d, d ∈ s.live → d ∈ s.registry) := by
  induction h with
  | init => exact ⟨fun d => by simp, fun d hd => by simp at hd⟩
  | openCall s env eng name opts hr ih =>
    obtain ⟨ih1, ih2⟩ := ih
    rcases hres : (Database.«open» env eng s.registry name opts).result
      with e | d0
    · refine ⟨fun d => ?_, fun d hd => ?_⟩
      · simpa [openStep, hres] using ih1 d
      · have hd2 : d ∈ s.live := by simpa [openStep, hres] using hd
        have hsub := open_registry_mono env eng s.registry name opts
        simpa [openStep, hres] using hsub (ih2 d hd2)
    · obtain ⟨hdop, henv, hnot, hreg⟩ :=
        open_ok_spec env eng s.registry name opts d0 hres
      have hnotlive : d0.db.dbi ∉ s.live := fun hmem => hnot (ih2 _ hmem)
      refine ⟨fun d => ?_, fun d hd => ?_⟩
      · by_cases hd : d = d0.db.dbi
        · subst hd
          have hz : Multiset.count d0.db.dbi s.live = 0 :=
            Multiset.count_eq_zero.2 hnotlive
          simp [openStep, hres, hz]
        · have hle := ih1 d
          simpa [openStep, hres, Multiset.count_cons_of_ne hd] using hle
      · have hd2 : d = d0.db.dbi ∨ d ∈ s.live := by
          simpa [openStep, hres] using hd
        have : d ∈ insert d0.db.dbi s.registry := by
          rcases hd2 with hd2 | hd2
          · subst hd2; exact Finset.mem_insert_self _ _
          · exact Finset.mem_insert_of_mem (ih2 d hd2)
        simpa [openStep, hres, hreg] using this
  | dropCall s dbi hr hmem ih =>
    obtain ⟨ih1, ih2⟩ := ih
    obtain ⟨h21, h22⟩ := erase_preserves_inv s.registry s.live dbi ih1 ih2
    refine ⟨fun d => ?_, fun d hd => ?_⟩
    · simpa [dropStep] using h21 d
    · have hd2 : d ∈ s.live.erase dbi := by simpa [dropStep] using hd
      have h3 := h22 d hd2
      simpa [dropStep, dbi_close] using h3
  | deleteCall s env outcome dbi hr hmem ih =>
    obtain ⟨ih1, ih2⟩ := ih
    obtain ⟨h21, h22⟩ := erase_preserves_inv s.registry s.live dbi ih1 ih2
    refine ⟨fun d => ?_, fun d hd => ?_⟩
    · simpa [deleteStep] using h21 d
    · have hd2 : d ∈ s.live.erase dbi := by simpa [deleteStep] using hd
      have h3 := h22 d hd2
      simpa [deleteStep, delete_registry_erase] using h3

/-- Witness for C3's amended invariant at the initial state. -/
theorem reachable_live_registry_invariant_witness :
    (∀ d, Multiset.count d (0 : Multiset Nat) ≤ 1) ∧
    (∀ d, d ∈ (0 : Multiset Nat) → d ∈ (∅ : Finset Nat)) :=
  reachable_live_registry_invariant { registry := ∅, live := 0 }
    Reachable.init

/-- C3 counterexample: the state with dbi 5 registered and no live handle is
reachable (one `open` whose commit failed), so "an identifier is present in
the registry iff exactly one live `Database` wraps it" fails: 5 is
registered but zero live handles wrap it. -/
theorem reachable_registered_without_live :
    Reachable { registry := {5}, live := 0 } ∧
    (5 : Nat) ∈ ({5} : Finset Nat) ∧
    Multiset.count 5 (0 : Multiset Nat) ≠ 1 := by
  refine ⟨?_, by decide, by decide⟩
  have h := Reachable.openCall { registry := ∅, live := 0 } 0
    ⟨none, Except.ok 5, none, none, some (-1)⟩ none DatabaseOptions.defaults
    Reachable.init
  have he : openStep 0 ⟨none, Except.ok 5, none, none, some (-1)⟩ none
      DatabaseOptions.defaults { registry := ∅, live := 0 } =
      { registry := {5}, live := 0 } := by decide
  rw [he] at h
  exact h


end LmdbZero
